import Mathlib

/-!
Shallow embedding of the exterior-ballistics core of `bullet_drop_test.py`
(functions `find_zero_angle`, its inner helpers `calculate_drag_coefficient`
and `simulate_to_zero`, and `calculate_trajectory` with its own inner
`calculate_drag_coefficient` and integration loop), together with theorems
settling the specification claims about that code.

Modelling conventions:
* Python floats are modelled by real numbers `ℝ`; all numeric literals of the
  source appear verbatim as exact decimal literals.
* The two `while` loops of the source are unbounded; they are modelled by
  fuel-indexed recursive functions returning `Option`/`Except` values, where
  fuel exhaustion (`none` / `fuelExhausted`) models a computation that is
  still running.  All claim theorems quantify over the fuel.
* The source duplicates the drag-coefficient helper and the physical
  constants inside each of the two top-level functions; the embedding keeps
  that duplication: namespace `FZ` embeds the inside of `find_zero_angle`,
  namespace `CT` the inside of `calculate_trajectory`.
* `positions[-1]` on the possibly-empty Python list is modelled with
  `List.getLast?`, an empty list giving the `emptyPositions` error
  (Python's `IndexError`).
-/

/-- The drag-family selector strings used by the source. -/
def famG1 : String := "G1"

/-- The G7 drag-family selector string. -/
def famG7 : String := "G7"

/-- A lower-case (hence unrecognized) drag-family selector string. -/
def famg1 : String := "g1"

/-- Projectile state local to an integration loop: downrange distance `x`
(feet), height `y` (feet), and the velocity components (fps); the mutable
local variables `x, y, vx, vy` of both loops in the source. -/
structure State where
  x : ℝ
  y : ℝ
  vx : ℝ
  vy : ℝ

namespace FZ

/-- Gravity constant declared inside `find_zero_angle` (ft/s²). -/
def GRAVITY : ℝ := 32.174

/-- Air-density constant declared inside `find_zero_angle` (lb/ft³). -/
def AIR_DENSITY : ℝ := 0.0023769

/-- The fixed integration time step `dt = 0.001` of `simulate_to_zero`. -/
def dt : ℝ := 0.001

/-- Inner helper `calculate_drag_coefficient` of `find_zero_angle`:
Mach number is `velocity / 1116.4`; the `else` branch of the source treats
every string other than `"G1"` as G7. -/
noncomputable def calculate_drag_coefficient (velocity : ℝ) (drag_model : String) : ℝ :=
  if drag_model = "G1" then
    if velocity / 1116.4 < 0.7 then 0.2
    else if velocity / 1116.4 < 1.2 then 0.25 + (velocity / 1116.4 - 0.7) * 0.5
    else 0.52
  else
    if velocity / 1116.4 < 0.7 then 0.1
    else if velocity / 1116.4 < 1.2 then 0.15 + (velocity / 1116.4 - 0.7) * 0.3
    else 0.3

/-- `v = math.sqrt(vx**2 + vy**2)` of the loop body of `simulate_to_zero`. -/
noncomputable def speed (s : State) : ℝ := Real.sqrt (s.vx ^ 2 + s.vy ^ 2)

/-- `drag = (AIR_DENSITY * v**2 * cd) / (ballistic_coef * 2)`. -/
noncomputable def dragAccel (bc : ℝ) (fam : String) (s : State) : ℝ :=
  AIR_DENSITY * speed s ^ 2 * calculate_drag_coefficient (speed s) fam / (bc * 2)

/-- `drag_x = drag * vx / v if v > 0 else 0`. -/
noncomputable def dragX (bc : ℝ) (fam : String) (s : State) : ℝ :=
  if speed s > 0 then dragAccel bc fam s * s.vx / speed s else 0

/-- `drag_y = drag * vy / v if v > 0 else 0`. -/
noncomputable def dragY (bc : ℝ) (fam : String) (s : State) : ℝ :=
  if speed s > 0 then dragAccel bc fam s * s.vy / speed s else 0

/-- One execution of the loop body of `simulate_to_zero`: velocities are
updated first, then the position is advanced with the updated velocities
(semi-implicit Euler), exactly as in the source. -/
noncomputable def step (bc : ℝ) (fam : String) (s : State) : State :=
  { x := s.x + (s.vx - dragX bc fam s * dt) * dt
    y := s.y + (s.vy - (GRAVITY + dragY bc fam s) * dt) * dt
    vx := s.vx - dragX bc fam s * dt
    vy := s.vy - (GRAVITY + dragY bc fam s) * dt }

/-- The `while x <= zero_range` loop of `simulate_to_zero`, fuel-indexed.
After each step the source returns `y` early when `x >= zero_range`; when the
guard fails the trailing `return y` runs.  `none` models fuel exhaustion
(a loop still running after `fuel` iterations). -/
noncomputable def simLoop (bc : ℝ) (fam : String) (zero_range : ℝ) :
    ℕ → State → Option ℝ
  | 0, s => if s.x ≤ zero_range then none else some s.y
  | n + 1, s =>
    if s.x ≤ zero_range then
      if (step bc fam s).x ≥ zero_range then some (step bc fam s).y
      else simLoop bc fam zero_range n (step bc fam s)
    else some s.y

/-- Inner helper `simulate_to_zero` of `find_zero_angle`: initial state
`x = 0`, `y = sight_height/12` feet, velocity along `angle`; the stopping
range is `zero_range * 3` feet. -/
noncomputable def simulate_to_zero (initial_velocity ballistic_coef zero_range sight_height : ℝ)
    (drag_function : String) (fuel : ℕ) (angle : ℝ) : Option ℝ :=
  simLoop ballistic_coef drag_function (zero_range * 3) fuel
    ⟨0, sight_height / 12, initial_velocity * Real.cos angle,
      initial_velocity * Real.sin angle⟩

/-- The `for _ in range(50)` bisection loop of `find_zero_angle`, with the
iteration budget as an argument.  The returned `Bool` records whether the
tolerance test succeeded (an early `return angle_mid`) or the budget was
exhausted (the trailing `return (angle_low + angle_high) / 2`); the source
itself returns only the angle.  `none` models a simulation that never
terminated. -/
noncomputable def bisect (sim : ℝ → Option ℝ) (target_height : ℝ) :
    ℕ → ℝ → ℝ → Option (ℝ × Bool)
  | 0, angle_low, angle_high => some ((angle_low + angle_high) / 2, false)
  | n + 1, angle_low, angle_high =>
    match sim ((angle_low + angle_high) / 2) with
    | none => none
    | some height =>
      if |height - target_height| < 0.0001 then some ((angle_low + angle_high) / 2, true)
      else if height > target_height then
        bisect sim target_height n angle_low ((angle_low + angle_high) / 2)
      else
        bisect sim target_height n ((angle_low + angle_high) / 2) angle_high

/-- `find_zero_angle`: bisection over the bracket `[-0.1, 0.1]` for 50
iterations with target height `sight_height / 12` feet; only the angle of the
bisection result is returned, the convergence flag is discarded, exactly as
the source returns a bare float. -/
noncomputable def find_zero_angle (initial_velocity ballistic_coef zero_range sight_height : ℝ)
    (drag_function : String) (fuel : ℕ) : Option ℝ :=
  (bisect (simulate_to_zero initial_velocity ballistic_coef zero_range sight_height
      drag_function fuel) (sight_height / 12) 50 (-0.1) 0.1).map Prod.fst

end FZ

namespace CT

/-- Gravity constant re-declared inside `calculate_trajectory`. -/
def GRAVITY : ℝ := 32.174

/-- Air-density constant re-declared inside `calculate_trajectory`. -/
def AIR_DENSITY : ℝ := 0.0023769

/-- The fixed time step `dt = 0.001` of `calculate_trajectory`. -/
def dt : ℝ := 0.001

/-- Inner helper `calculate_drag_coefficient` of `calculate_trajectory`; the
source duplicates the one inside `find_zero_angle` verbatim, `else` again
meaning G7 for every string other than `"G1"`. -/
noncomputable def calculate_drag_coefficient (velocity : ℝ) (drag_model : String) : ℝ :=
  if drag_model = "G1" then
    if velocity / 1116.4 < 0.7 then 0.2
    else if velocity / 1116.4 < 1.2 then 0.25 + (velocity / 1116.4 - 0.7) * 0.5
    else 0.52
  else
    if velocity / 1116.4 < 0.7 then 0.1
    else if velocity / 1116.4 < 1.2 then 0.15 + (velocity / 1116.4 - 0.7) * 0.3
    else 0.3

/-- `v = math.sqrt(vx**2 + vy**2)` of the trajectory loop body. -/
noncomputable def speed (s : State) : ℝ := Real.sqrt (s.vx ^ 2 + s.vy ^ 2)

/-- `drag = (AIR_DENSITY * v**2 * cd) / (ballistic_coef * 2)`. -/
noncomputable def dragAccel (bc : ℝ) (fam : String) (s : State) : ℝ :=
  AIR_DENSITY * speed s ^ 2 * calculate_drag_coefficient (speed s) fam / (bc * 2)

/-- `drag_x = drag * vx / v if v > 0 else 0`. -/
noncomputable def dragX (bc : ℝ) (fam : String) (s : State) : ℝ :=
  if speed s > 0 then dragAccel bc fam s * s.vx / speed s else 0

/-- `drag_y = drag * vy / v if v > 0 else 0`. -/
noncomputable def dragY (bc : ℝ) (fam : String) (s : State) : ℝ :=
  if speed s > 0 then dragAccel bc fam s * s.vy / speed s else 0

/-- One execution of the trajectory loop body (identical update rule to the
one inside `find_zero_angle`). -/
noncomputable def step (bc : ℝ) (fam : String) (s : State) : State :=
  { x := s.x + (s.vx - dragX bc fam s * dt) * dt
    y := s.y + (s.vy - (GRAVITY + dragY bc fam s) * dt) * dt
    vx := s.vx - dragX bc fam s * dt
    vy := s.vy - (GRAVITY + dragY bc fam s) * dt }

/-- The `while x <= target_range` loop of `calculate_trajectory`: each
iteration steps the state and appends the sample
`(x / 3, (y - sight_height) * 12)` to `positions`; there is no early return,
the loop exits only when the guard fails.  `none` models fuel exhaustion. -/
noncomputable def ctLoop (bc : ℝ) (fam : String) (target_range sight_height : ℝ) :
    ℕ → State → List (ℝ × ℝ) → Option (List (ℝ × ℝ))
  | 0, s, positions => if s.x ≤ target_range then none else some positions
  | n + 1, s, positions =>
    if s.x ≤ target_range then
      ctLoop bc fam target_range sight_height n (step bc fam s)
        (positions ++ [((step bc fam s).x / 3, ((step bc fam s).y - sight_height) * 12)])
    else some positions

/-- The dictionary returned by `calculate_trajectory`. -/
structure Result where
  range_yards : ℝ
  drop_inches : ℝ
  trajectory : List (ℝ × ℝ)

/-- Failure modes of the embedded `calculate_trajectory`: `fuelExhausted` is
the modelling artifact for a loop that is still running, `emptyPositions`
models Python's `IndexError` from evaluating `positions[-1]` on an empty
list. -/
inductive CTError
  | fuelExhausted
  | emptyPositions
deriving DecidableEq

/-- `calculate_trajectory`: finds the zero angle via `find_zero_angle` with
the same velocity, ballistic coefficient, zero range, sight height and drag
family, then integrates out to `target_range * 3` feet collecting samples,
and builds the result dictionary from `positions[-1]`. -/
noncomputable def calculate_trajectory
    (initial_velocity ballistic_coef zero_range target_range sight_height : ℝ)
    (drag_function : String) (fuel : ℕ) : Except CTError Result :=
  match FZ.find_zero_angle initial_velocity ballistic_coef zero_range sight_height
      drag_function fuel with
  | none => .error .fuelExhausted
  | some initial_angle =>
    match ctLoop ballistic_coef drag_function (target_range * 3) (sight_height / 12) fuel
        ⟨0, sight_height / 12, initial_velocity * Real.cos initial_angle,
          initial_velocity * Real.sin initial_angle⟩ [] with
    | none => .error .fuelExhausted
    | some positions =>
      match positions.getLast? with
      | none => .error .emptyPositions
      | some last => .ok ⟨target_range * 3 / 3, last.2, positions⟩

end CT

/-! ### Helper lemmas about the drag-coefficient helpers -/

/-- Unfolding of `FZ.calculate_drag_coefficient` on the `"G1"` branch. -/
lemma FZ.cd_G1_eq (v : ℝ) :
    FZ.calculate_drag_coefficient v famG1 =
      if v / 1116.4 < 0.7 then 0.2
      else if v / 1116.4 < 1.2 then 0.25 + (v / 1116.4 - 0.7) * 0.5
      else 0.52 := by
  unfold FZ.calculate_drag_coefficient famG1
  rw [if_pos rfl]

/-- Unfolding of `FZ.calculate_drag_coefficient` on a non-`"G1"` family. -/
lemma FZ.cd_not_G1_eq (fam : String) (hfam : fam ≠ famG1) (v : ℝ) :
    FZ.calculate_drag_coefficient v fam =
      if v / 1116.4 < 0.7 then 0.1
      else if v / 1116.4 < 1.2 then 0.15 + (v / 1116.4 - 0.7) * 0.3
      else 0.3 := by
  unfold FZ.calculate_drag_coefficient
  rw [if_neg (show ¬(fam = "G1") from hfam)]

/-- Unfolding of `CT.calculate_drag_coefficient` on the `"G1"` branch. -/
lemma CT.cd_G1_eq_traj (v : ℝ) :
    CT.calculate_drag_coefficient v famG1 =
      if v / 1116.4 < 0.7 then 0.2
      else if v / 1116.4 < 1.2 then 0.25 + (v / 1116.4 - 0.7) * 0.5
      else 0.52 := by
  unfold CT.calculate_drag_coefficient famG1
  rw [if_pos rfl]

/-- Unfolding of `CT.calculate_drag_coefficient` on a non-`"G1"` family. -/
lemma CT.cd_not_G1_eq_traj (fam : String) (hfam : fam ≠ famG1) (v : ℝ) :
    CT.calculate_drag_coefficient v fam =
      if v / 1116.4 < 0.7 then 0.1
      else if v / 1116.4 < 1.2 then 0.15 + (v / 1116.4 - 0.7) * 0.3
      else 0.3 := by
  unfold CT.calculate_drag_coefficient
  rw [if_neg (show ¬(fam = "G1") from hfam)]

/-- The G7 selector string is not the G1 one. -/
lemma famG7_ne_famG1 : famG7 ≠ famG1 := by
  unfold famG7 famG1
  decide

/-! ### C2: the drag coefficient matches the piecewise spec -/

/-- Claim C2: for every non-negative speed, with Mach = speed / 1116.4, the
inner `calculate_drag_coefficient` of `find_zero_angle` returns, for G1:
0.2 below Mach 0.7, the ramp `0.25 + (Mach - 0.7) * 0.5` on `[0.7, 1.2)`,
and 0.52 from Mach 1.2 on; and for G7: 0.1, `0.15 + (Mach - 0.7) * 0.3`,
and 0.3 on the same three Mach ranges. -/
theorem drag_coefficient_piecewise (v : ℝ) (hv : 0 ≤ v) :
    (v / 1116.4 < 0.7 →
      FZ.calculate_drag_coefficient v famG1 = 0.2 ∧
      FZ.calculate_drag_coefficient v famG7 = 0.1) ∧
    (0.7 ≤ v / 1116.4 → v / 1116.4 < 1.2 →
      FZ.calculate_drag_coefficient v famG1 = 0.25 + (v / 1116.4 - 0.7) * 0.5 ∧
      FZ.calculate_drag_coefficient v famG7 = 0.15 + (v / 1116.4 - 0.7) * 0.3) ∧
    (1.2 ≤ v / 1116.4 →
      FZ.calculate_drag_coefficient v famG1 = 0.52 ∧
      FZ.calculate_drag_coefficient v famG7 = 0.3) := by
  rw [FZ.cd_G1_eq, FZ.cd_not_G1_eq famG7 famG7_ne_famG1]
  refine ⟨fun h => ?_, fun h1 h2 => ?_, fun h => ?_⟩
  · rw [if_pos h, if_pos h]
    exact ⟨rfl, rfl⟩
  · rw [if_neg (not_lt.mpr h1), if_pos h2, if_neg (not_lt.mpr h1), if_pos h2]
    exact ⟨rfl, rfl⟩
  · rw [if_neg (by linarith), if_neg (not_lt.mpr h), if_neg (by linarith),
      if_neg (not_lt.mpr h)]
    exact ⟨rfl, rfl⟩

/-- Witness for C2 at the concrete speed 0 (Mach 0, below 0.7). -/
theorem drag_coefficient_piecewise_witness :
    (0 : ℝ) ≤ 0 ∧
      (FZ.calculate_drag_coefficient 0 famG1 = 0.2 ∧
        FZ.calculate_drag_coefficient 0 famG7 = 0.1) :=
  ⟨le_refl 0, (drag_coefficient_piecewise 0 (le_refl 0)).1 (by norm_num)⟩

/-! ### C10: every family other than `"G1"` silently gets the G7 branch -/

/-- Claim C10: for every drag-family string other than exactly `"G1"`
(lower-case `"g1"`, misspellings, anything), both inner drag-coefficient
helpers return exactly what they return for `"G7"`; no family is rejected. -/
theorem non_G1_family_uses_G7_branch (fam : String) (hfam : fam ≠ famG1) (v : ℝ) :
    FZ.calculate_drag_coefficient v fam = FZ.calculate_drag_coefficient v famG7 ∧
    CT.calculate_drag_coefficient v fam = CT.calculate_drag_coefficient v famG7 := by
  rw [FZ.cd_not_G1_eq fam hfam, FZ.cd_not_G1_eq famG7 famG7_ne_famG1,
    CT.cd_not_G1_eq_traj fam hfam, CT.cd_not_G1_eq_traj famG7 famG7_ne_famG1]
  exact ⟨rfl, rfl⟩

/-- Witness for C10 at the lower-case family string `famg1` and speed 500. -/
theorem non_G1_family_uses_G7_branch_witness :
    (famg1 ≠ famG1) ∧
      (FZ.calculate_drag_coefficient 500 famg1 = FZ.calculate_drag_coefficient 500 famG7 ∧
        CT.calculate_drag_coefficient 500 famg1 = CT.calculate_drag_coefficient 500 famG7) :=
  ⟨by unfold famg1 famG1; decide,
    non_G1_family_uses_G7_branch famg1 (by unfold famg1 famG1; decide) 500⟩

/-! ### C3: monotonicity holds, continuity fails at the Mach 0.7 boundary -/

/-- Claim C3 (amended part): for both the G1 and the G7 family, the drag
coefficient computed by the inner helper of `find_zero_angle` is a
non-decreasing function of speed (hence of Mach number). -/
theorem drag_coefficient_monotone (v1 v2 : ℝ) (h : v1 ≤ v2) :
    FZ.calculate_drag_coefficient v1 famG1 ≤ FZ.calculate_drag_coefficient v2 famG1 ∧
    FZ.calculate_drag_coefficient v1 famG7 ≤ FZ.calculate_drag_coefficient v2 famG7 := by
  have hm : v1 / 1116.4 ≤ v2 / 1116.4 := by
    apply div_le_div_of_nonneg_right h
    norm_num
  constructor
  · rw [FZ.cd_G1_eq, FZ.cd_G1_eq]
    split_ifs <;> nlinarith
  · rw [FZ.cd_not_G1_eq famG7 famG7_ne_famG1, FZ.cd_not_G1_eq famG7 famG7_ne_famG1]
    split_ifs <;> nlinarith

/-- Witness for C3's amended monotonicity at the concrete speeds 700 ≤ 900. -/
theorem drag_coefficient_monotone_witness :
    (700 : ℝ) ≤ 900 ∧
      (FZ.calculate_drag_coefficient 700 famG1 ≤ FZ.calculate_drag_coefficient 900 famG1 ∧
        FZ.calculate_drag_coefficient 700 famG7 ≤ FZ.calculate_drag_coefficient 900 famG7) :=
  ⟨by norm_num, drag_coefficient_monotone 700 900 (by norm_num)⟩

/-- Counterexample to C3 as stated: the G1 drag coefficient is not
continuous at the speed 781.48 fps, which is exactly Mach 0.7 — the value
jumps from 0.2 (below) to 0.25 (at the boundary). -/
theorem drag_coefficient_discontinuous_at_mach_07 :
    ¬ ContinuousAt (fun v : ℝ => FZ.calculate_drag_coefficient v famG1) 781.48 := by
  intro hc
  have hlim : Filter.Tendsto (fun v : ℝ => FZ.calculate_drag_coefficient v famG1)
      (nhdsWithin 781.48 (Set.Iio 781.48))
      (nhds (FZ.calculate_drag_coefficient 781.48 famG1)) :=
    hc.continuousWithinAt
  have hev : ∀ v ∈ Set.Iio (781.48 : ℝ),
      FZ.calculate_drag_coefficient v famG1 = 0.2 := by
    intro v hv
    rw [FZ.cd_G1_eq, if_pos]
    rw [div_lt_iff₀ (by norm_num : (0:ℝ) < 1116.4)]
    calc v < 781.48 := hv
    _ = 0.7 * 1116.4 := by norm_num
  have hlim2 : Filter.Tendsto (fun v : ℝ => FZ.calculate_drag_coefficient v famG1)
      (nhdsWithin 781.48 (Set.Iio 781.48)) (nhds 0.2) := by
    apply Filter.Tendsto.congr' _ tendsto_const_nhds
    exact (eventually_nhdsWithin_of_forall hev).mono fun v hv => hv.symm
  have hval : FZ.calculate_drag_coefficient 781.48 famG1 = 0.2 :=
    tendsto_nhds_unique hlim hlim2
  rw [FZ.cd_G1_eq] at hval
  rw [if_neg (by norm_num), if_pos (by norm_num)] at hval
  norm_num at hval

/-! ### C1: the returned angle meets the tolerance or the budget ran out -/

/-- Structure of the bisection loop: whenever it produces a result, either
the convergence flag is set and the returned angle's simulated height meets
the 0.0001-feet tolerance, or the flag is clear, i.e. the iteration budget
was exhausted and the final bracket midpoint was returned. -/
lemma bisect_some_spec (sim : ℝ → Option ℝ) (t : ℝ) :
    ∀ (n : ℕ) (lo hi a : ℝ) (flag : Bool),
      FZ.bisect sim t n lo hi = some (a, flag) →
      (flag = true ∧ ∃ y, sim a = some y ∧ |y - t| < 0.0001) ∨ flag = false := by
  intro n
  induction n with
  | zero =>
    intro lo hi a flag h
    rw [FZ.bisect] at h
    right
    exact (Prod.mk.injEq .. ▸ Option.some.injEq .. ▸ h).2.symm
  | succ n ih =>
    intro lo hi a flag h
    rw [FZ.bisect] at h
    cases hs : sim ((lo + hi) / 2) with
    | none => rw [hs] at h; exact absurd h (by simp)
    | some y =>
      rw [hs] at h
      dsimp only at h
      by_cases htol : |y - t| < 0.0001
      · rw [if_pos htol] at h
        have hp := (Prod.mk.injEq .. ▸ Option.some.injEq .. ▸ h)
        left
        refine ⟨hp.2.symm, y, ?_, htol⟩
        rw [← hp.1]
        exact hs
      · rw [if_neg htol] at h
        by_cases hgt : y > t
        · rw [if_pos hgt] at h
          exact ih _ _ _ _ h
        · rw [if_neg hgt] at h
          exact ih _ _ _ _ h

/-- Claim C1: for valid parameters (positive muzzle velocity and ballistic
coefficient) and positive zero range, any angle returned by
`find_zero_angle`, fed back into its own trajectory integrator
`simulate_to_zero` out to the same zero range, yields a final height within
0.0001 feet of the sight height in feet (`sight_height / 12`), or else the
bisection ran all 50 iterations without converging and returned the final
bracket midpoint. -/
theorem find_zero_angle_tolerance_or_budget
    (mv bc zr sh : ℝ) (fam : String) (fuel : ℕ) (a : ℝ)
    (hmv : 0 < mv) (hbc : 0 < bc) (hzr : 0 < zr)
    (hfind : FZ.find_zero_angle mv bc zr sh fam fuel = some a) :
    (∃ h, FZ.simulate_to_zero mv bc zr sh fam fuel a = some h ∧ |h - sh / 12| < 0.0001) ∨
      FZ.bisect (FZ.simulate_to_zero mv bc zr sh fam fuel) (sh / 12) 50 (-0.1) 0.1 =
        some (a, false) := by
  unfold FZ.find_zero_angle at hfind
  cases hb : FZ.bisect (FZ.simulate_to_zero mv bc zr sh fam fuel) (sh / 12) 50 (-0.1) 0.1 with
  | none => rw [hb] at hfind; exact absurd hfind (by simp)
  | some p =>
    obtain ⟨b, flag⟩ := p
    rw [hb] at hfind
    have hba : b = a := by
      have := Option.some.injEq .. ▸ hfind
      simpa using this
    rcases bisect_some_spec _ _ 50 _ _ _ _ hb with ⟨-, y, hy, ht⟩ | hf
    · left
      exact ⟨y, hba ▸ hy, ht⟩
    · right
      rw [hba, hf]

/-! ### Negative stopping ranges: the loops never run (C4, C5) -/

/-- An unrecognized drag-family selector string used as a counterexample. -/
def famBogus : String := "BOGUS"

/-- If the `while` guard fails at entry, `simLoop` returns the current height
without executing the body, whatever the fuel. -/
lemma FZ.simLoop_not_entered (bc : ℝ) (fam : String) (zrft : ℝ) (fuel : ℕ) (s : State)
    (h : ¬ s.x ≤ zrft) : FZ.simLoop bc fam zrft fuel s = some s.y := by
  cases fuel <;> rw [FZ.simLoop] <;> rw [if_neg h]

/-- If the `while` guard fails at entry, the trajectory loop returns the
accumulated positions unchanged, whatever the fuel. -/
lemma CT.ctLoop_not_entered (bc : ℝ) (fam : String) (trft shft : ℝ) (fuel : ℕ)
    (s : State) (acc : List (ℝ × ℝ)) (h : ¬ s.x ≤ trft) :
    CT.ctLoop bc fam trft shft fuel s acc = some acc := by
  cases fuel <;> rw [CT.ctLoop] <;> rw [if_neg h]

/-- For a strictly negative zero range the solver's integrator never enters
its loop and returns the initial height `sight_height / 12`. -/
lemma FZ.simulate_to_zero_neg_range (mv bc zr sh : ℝ) (fam : String) (fuel : ℕ)
    (angle : ℝ) (h : zr < 0) :
    FZ.simulate_to_zero mv bc zr sh fam fuel angle = some (sh / 12) := by
  unfold FZ.simulate_to_zero
  apply FZ.simLoop_not_entered
  show ¬ (0 : ℝ) ≤ zr * 3
  rw [not_le]
  linarith

/-- For a strictly negative zero range, `find_zero_angle` converges at the
very first midpoint 0 (the simulated height trivially equals the target) and
returns angle 0, whatever the other inputs are. -/
lemma FZ.find_zero_angle_neg_range (mv bc zr sh : ℝ) (fam : String) (fuel : ℕ)
    (h : zr < 0) : FZ.find_zero_angle mv bc zr sh fam fuel = some 0 := by
  unfold FZ.find_zero_angle
  rw [show (50 : ℕ) = 49 + 1 from rfl, FZ.bisect]
  rw [FZ.simulate_to_zero_neg_range mv bc zr sh fam fuel ((-0.1 + 0.1) / 2) h]
  dsimp only
  rw [if_pos (by rw [sub_self, abs_zero]; norm_num)]
  rw [Option.map_some']
  norm_num

/-! ### C5 (amended): there is no input validation at all -/

/-- Claim C5 (amended): `find_zero_angle` performs no domain validation:
for every negative range — and arbitrary, even non-positive, muzzle velocity
and ballistic coefficient and an arbitrary (even unrecognized) drag family —
it returns the normal result `some 0` instead of rejecting the input. -/
theorem find_zero_angle_accepts_invalid_inputs (mv bc zr sh : ℝ) (fam : String)
    (fuel : ℕ) (h : zr < 0) : FZ.find_zero_angle mv bc zr sh fam fuel = some 0 :=
  FZ.find_zero_angle_neg_range mv bc zr sh fam fuel h

/-- Witness for C5's amended claim: zero muzzle velocity, negative ballistic
coefficient, negative range and an unrecognized family are all silently
accepted. -/
theorem find_zero_angle_accepts_invalid_inputs_witness :
    (-2 : ℝ) < 0 ∧ FZ.find_zero_angle 0 (-3) (-2) 1.5 famBogus 0 = some 0 :=
  ⟨by norm_num, find_zero_angle_accepts_invalid_inputs 0 (-3) (-2) 1.5 famBogus 0 (by norm_num)⟩

/-- Counterexample to C5 as stated: an input with a negative zero range and
the unrecognized drag family `"BOGUS"` is not rejected with a validation
error — `find_zero_angle` returns the ordinary result `some 0`. -/
theorem invalid_input_not_rejected :
    FZ.find_zero_angle 2750 0.485 (-1) 1.5 famBogus 1 = some 0 :=
  FZ.find_zero_angle_neg_range 2750 0.485 (-1) 1.5 famBogus 1 (by norm_num)

/-! ### C4 (amended): strictly negative stopping range leaves state unchanged -/

/-- Claim C4 (amended): for a strictly negative stopping range, neither
integration loop executes its body: the solver's integrator returns the
initial sight height `sight_height / 12` unchanged and the trajectory loop
produces no samples.  (At stopping range exactly 0 the guard `x <= range`
holds and the body does execute; see the counterexample.) -/
theorem integrator_negative_range_returns_initial_state
    (mv bc zr sh : ℝ) (fam : String) (fuel : ℕ) (angle : ℝ) (h : zr < 0) :
    FZ.simulate_to_zero mv bc zr sh fam fuel angle = some (sh / 12) ∧
    ∀ s : State, s.x = 0 → CT.ctLoop bc fam (zr * 3) (sh / 12) fuel s [] = some [] := by
  constructor
  · exact FZ.simulate_to_zero_neg_range mv bc zr sh fam fuel angle h
  · intro s hs
    apply CT.ctLoop_not_entered
    rw [hs, not_le]
    linarith

/-- Witness for C4's amended claim at concrete inputs. -/
theorem integrator_negative_range_returns_initial_state_witness :
    (-1 : ℝ) < 0 ∧
      (FZ.simulate_to_zero 2750 0.485 (-1) 1.5 famG1 3 0 = some (1.5 / 12) ∧
        ∀ s : State, s.x = 0 →
          CT.ctLoop 0.485 famG1 ((-1) * 3) (1.5 / 12) 3 s [] = some []) :=
  ⟨by norm_num, integrator_negative_range_returns_initial_state 2750 0.485 (-1) 1.5 famG1 3 0
    (by norm_num)⟩

/-! ### C9: negative target range gives an empty positions list -/

/-- Claim C9: for a strictly negative target range the trajectory loop never
executes, `positions` stays empty, and building the result from
`positions[-1]` fails (Python `IndexError`, here `emptyPositions`); in
particular `calculate_trajectory` never returns an ordinary result. -/
theorem calculate_trajectory_negative_range_no_result
    (mv bc zr sh tr : ℝ) (fam : String) (fuel : ℕ) (h : tr < 0) :
    (∀ a, FZ.find_zero_angle mv bc zr sh fam fuel = some a →
      CT.calculate_trajectory mv bc zr tr sh fam fuel =
        .error CT.CTError.emptyPositions) ∧
    ∀ r, CT.calculate_trajectory mv bc zr tr sh fam fuel ≠ .ok r := by
  have hguard : ∀ s : State, s.x = 0 → ¬ s.x ≤ tr * 3 := by
    intro s hs
    rw [hs, not_le]
    linarith
  have hloop : ∀ a : ℝ,
      CT.ctLoop bc fam (tr * 3) (sh / 12) fuel
        ⟨0, sh / 12, mv * Real.cos a, mv * Real.sin a⟩ [] = some [] := fun a =>
    CT.ctLoop_not_entered bc fam (tr * 3) (sh / 12) fuel _ [] (hguard _ rfl)
  constructor
  · intro a ha
    unfold CT.calculate_trajectory
    rw [ha]
    dsimp only
    rw [hloop a]
    rfl
  · intro r
    unfold CT.calculate_trajectory
    cases hf : FZ.find_zero_angle mv bc zr sh fam fuel with
    | none => simp
    | some a =>
      dsimp only
      rw [hloop a]
      simp

/-- Witness for C9 at concrete inputs (target range −5 yards). -/
theorem calculate_trajectory_negative_range_no_result_witness :
    (-5 : ℝ) < 0 ∧
      ((∀ a, FZ.find_zero_angle 2750 0.485 100 1.5 famG1 1 = some a →
        CT.calculate_trajectory 2750 0.485 100 (-5) 1.5 famG1 1 =
          .error CT.CTError.emptyPositions) ∧
      ∀ r, CT.calculate_trajectory 2750 0.485 100 (-5) 1.5 famG1 1 ≠ .ok r) :=
  ⟨by norm_num,
    calculate_trajectory_negative_range_no_result 2750 0.485 100 1.5 (-5) famG1 1
      (by norm_num)⟩

/-! ### C8: exact-zero speed gives zero drag components, no division -/

/-- Claim C8: in the loop bodies of both the solver's simulation and the
final trajectory computation, a state with speed exactly zero gets zero drag
components — the `if v > 0` guard takes the `else 0` branch, so the division
by `v` is never taken — and the step degenerates to pure gravity, with no
error. -/
theorem zero_speed_gives_zero_drag
    (bc1 bc2 : ℝ) (fam1 fam2 : String) (s t : State)
    (h1 : FZ.speed s = 0) (h2 : CT.speed t = 0) :
    FZ.dragX bc1 fam1 s = 0 ∧ FZ.dragY bc1 fam1 s = 0 ∧
    CT.dragX bc2 fam2 t = 0 ∧ CT.dragY bc2 fam2 t = 0 ∧
    FZ.step bc1 fam1 s =
      ⟨s.x + s.vx * FZ.dt, s.y + (s.vy - FZ.GRAVITY * FZ.dt) * FZ.dt,
        s.vx, s.vy - FZ.GRAVITY * FZ.dt⟩ ∧
    CT.step bc2 fam2 t =
      ⟨t.x + t.vx * CT.dt, t.y + (t.vy - CT.GRAVITY * CT.dt) * CT.dt,
        t.vx, t.vy - CT.GRAVITY * CT.dt⟩ := by
  have hx1 : FZ.dragX bc1 fam1 s = 0 := by
    unfold FZ.dragX
    rw [h1]
    rw [if_neg (lt_irrefl 0)]
  have hy1 : FZ.dragY bc1 fam1 s = 0 := by
    unfold FZ.dragY
    rw [h1]
    rw [if_neg (lt_irrefl 0)]
  have hx2 : CT.dragX bc2 fam2 t = 0 := by
    unfold CT.dragX
    rw [h2]
    rw [if_neg (lt_irrefl 0)]
  have hy2 : CT.dragY bc2 fam2 t = 0 := by
    unfold CT.dragY
    rw [h2]
    rw [if_neg (lt_irrefl 0)]
  refine ⟨hx1, hy1, hx2, hy2, ?_, ?_⟩
  · unfold FZ.step
    rw [hx1, hy1]
    simp only [State.mk.injEq]
    refine ⟨by ring, by ring, by ring, by ring⟩
  · unfold CT.step
    rw [hx2, hy2]
    simp only [State.mk.injEq]
    refine ⟨by ring, by ring, by ring, by ring⟩

/-- The speed of the all-zero state is zero (for the solver's helper). -/
lemma FZ.speed_zero_state : FZ.speed ⟨0, 0, 0, 0⟩ = 0 := by
  unfold FZ.speed
  show Real.sqrt ((0:ℝ) ^ 2 + (0:ℝ) ^ 2) = 0
  rw [show ((0:ℝ) ^ 2 + (0:ℝ) ^ 2) = 0 by norm_num]
  exact Real.sqrt_zero

/-- The speed of the all-zero state is zero (for the trajectory helper). -/
lemma CT.speed_zero_state_traj : CT.speed ⟨0, 0, 0, 0⟩ = 0 := by
  unfold CT.speed
  show Real.sqrt ((0:ℝ) ^ 2 + (0:ℝ) ^ 2) = 0
  rw [show ((0:ℝ) ^ 2 + (0:ℝ) ^ 2) = 0 by norm_num]
  exact Real.sqrt_zero

/-- Witness for C8 at the all-zero state. -/
theorem zero_speed_gives_zero_drag_witness :
    FZ.speed ⟨0, 0, 0, 0⟩ = 0 ∧ CT.speed ⟨0, 0, 0, 0⟩ = 0 ∧
      (FZ.dragX 0.485 famG1 ⟨0, 0, 0, 0⟩ = 0 ∧ FZ.dragY 0.485 famG1 ⟨0, 0, 0, 0⟩ = 0 ∧
        CT.dragX 0.485 famG7 ⟨0, 0, 0, 0⟩ = 0 ∧ CT.dragY 0.485 famG7 ⟨0, 0, 0, 0⟩ = 0 ∧
        FZ.step 0.485 famG1 ⟨0, 0, 0, 0⟩ =
          ⟨(0:ℝ) + 0 * FZ.dt, 0 + (0 - FZ.GRAVITY * FZ.dt) * FZ.dt,
            0, 0 - FZ.GRAVITY * FZ.dt⟩ ∧
        CT.step 0.485 famG7 ⟨0, 0, 0, 0⟩ =
          ⟨(0:ℝ) + 0 * CT.dt, 0 + (0 - CT.GRAVITY * CT.dt) * CT.dt,
            0, 0 - CT.GRAVITY * CT.dt⟩) :=
  ⟨FZ.speed_zero_state, CT.speed_zero_state_traj,
    zero_speed_gives_zero_drag 0.485 0.485 famG1 famG7 ⟨0, 0, 0, 0⟩ ⟨0, 0, 0, 0⟩
      FZ.speed_zero_state CT.speed_zero_state_traj⟩

/-! ### C7: x-monotonicity — true only under a per-step drag-impulse bound -/

/-- The speed of a horizontally moving state is its forward velocity. -/
lemma FZ.speed_horizontal (x y vx : ℝ) (h : 0 ≤ vx) : FZ.speed ⟨x, y, vx, 0⟩ = vx := by
  unfold FZ.speed
  show Real.sqrt (vx ^ 2 + (0:ℝ) ^ 2) = vx
  rw [show vx ^ 2 + (0:ℝ) ^ 2 = vx ^ 2 by ring]
  exact Real.sqrt_sq h

/-- Above Mach 1.2 (speed ≥ 1339.68 fps) the G1 branch returns 0.52. -/
lemma FZ.cd_G1_supersonic (v : ℝ) (h : 1339.68 ≤ v) :
    FZ.calculate_drag_coefficient v famG1 = 0.52 := by
  rw [FZ.cd_G1_eq]
  rw [if_neg (by rw [not_lt, le_div_iff₀ (by norm_num : (0:ℝ) < 1116.4)]; linarith),
    if_neg (by rw [not_lt, le_div_iff₀ (by norm_num : (0:ℝ) < 1116.4)]; linarith)]

/-- Claim C7 (amended): an integration step of the solver's loop does not
decrease `x` — and keeps `vx` non-negative, so the property can be iterated —
whenever `vx ≥ 0` at the start of the step and the drag impulse of the step,
`drag · dt`, does not exceed the current speed.  (Without that bound a single
step can reverse `vx`; see the counterexample.) -/
theorem step_advances_x_under_drag_bound (bc : ℝ) (fam : String) (s : State)
    (hvx : 0 ≤ s.vx) (hdrag : FZ.dragAccel bc fam s * FZ.dt ≤ FZ.speed s) :
    s.x ≤ (FZ.step bc fam s).x ∧ 0 ≤ (FZ.step bc fam s).vx := by
  have hdt : (0:ℝ) < FZ.dt := by unfold FZ.dt; norm_num
  have hvx' : 0 ≤ s.vx - FZ.dragX bc fam s * FZ.dt := by
    unfold FZ.dragX
    by_cases hsp : FZ.speed s > 0
    · rw [if_pos hsp]
      have hrw : FZ.dragAccel bc fam s * s.vx / FZ.speed s * FZ.dt =
          s.vx * (FZ.dragAccel bc fam s * FZ.dt / FZ.speed s) := by ring
      rw [hrw]
      have hq : FZ.dragAccel bc fam s * FZ.dt / FZ.speed s ≤ 1 := by
        rw [div_le_one hsp]
        exact hdrag
      nlinarith
    · rw [if_neg hsp]
      simpa using hvx
  constructor
  · show s.x ≤ s.x + (s.vx - FZ.dragX bc fam s * FZ.dt) * FZ.dt
    nlinarith
  · exact hvx'

/-- Witness for C7's amended claim: a step from the state
`(x, y, vx, vy) = (0, 0.125, 2750, 0)` with ballistic coefficient 0.485 and
family G1 satisfies the drag-impulse bound and advances `x`. -/
theorem step_advances_x_under_drag_bound_witness :
    0 ≤ (⟨0, 0.125, 2750, 0⟩ : State).vx ∧
    FZ.dragAccel 0.485 famG1 ⟨0, 0.125, 2750, 0⟩ * FZ.dt ≤
      FZ.speed ⟨0, 0.125, 2750, 0⟩ ∧
    ((⟨0, 0.125, 2750, 0⟩ : State).x ≤ (FZ.step 0.485 famG1 ⟨0, 0.125, 2750, 0⟩).x ∧
      0 ≤ (FZ.step 0.485 famG1 ⟨0, 0.125, 2750, 0⟩).vx) := by
  have hsp : FZ.speed ⟨0, 0.125, 2750, 0⟩ = 2750 :=
    FZ.speed_horizontal 0 0.125 2750 (by norm_num)
  have hcd : FZ.calculate_drag_coefficient 2750 famG1 = 0.52 :=
    FZ.cd_G1_supersonic 2750 (by norm_num)
  have h1 : 0 ≤ (⟨0, 0.125, 2750, 0⟩ : State).vx := by
    show (0:ℝ) ≤ 2750
    norm_num
  have h2 : FZ.dragAccel 0.485 famG1 ⟨0, 0.125, 2750, 0⟩ * FZ.dt ≤
      FZ.speed ⟨0, 0.125, 2750, 0⟩ := by
    unfold FZ.dragAccel
    rw [hsp, hcd]
    unfold FZ.AIR_DENSITY FZ.dt
    norm_num
  exact ⟨h1, h2, step_advances_x_under_drag_bound 0.485 famG1 ⟨0, 0.125, 2750, 0⟩ h1 h2⟩

/-- Counterexample to C7 as stated: from the forward-moving state
`(0, 0.125, 2000, 0)` (`vx = 2000 ≥ 0`), one step of the solver's integrator
with the tiny but positive ballistic coefficient 0.00001 strictly decreases
the downrange distance `x` (the Euler drag impulse reverses `vx`). -/
theorem step_can_decrease_x :
    0 ≤ (⟨0, 0.125, 2000, 0⟩ : State).vx ∧
    (FZ.step 0.00001 famG1 ⟨0, 0.125, 2000, 0⟩).x < (⟨0, 0.125, 2000, 0⟩ : State).x := by
  have hsp : FZ.speed ⟨0, 0.125, 2000, 0⟩ = 2000 :=
    FZ.speed_horizontal 0 0.125 2000 (by norm_num)
  have hcd : FZ.calculate_drag_coefficient 2000 famG1 = 0.52 :=
    FZ.cd_G1_supersonic 2000 (by norm_num)
  have hdx : FZ.dragX 0.00001 famG1 ⟨0, 0.125, 2000, 0⟩ =
      0.0023769 * 2000 ^ 2 * 0.52 / (0.00001 * 2) := by
    unfold FZ.dragX FZ.dragAccel
    rw [hsp, hcd]
    rw [if_pos (by norm_num : (2000:ℝ) > 0)]
    show FZ.AIR_DENSITY * 2000 ^ 2 * 0.52 / (0.00001 * 2) * 2000 / 2000 = _
    unfold FZ.AIR_DENSITY
    norm_num
  constructor
  · show (0:ℝ) ≤ 2000
    norm_num
  · show (⟨0, 0.125, 2000, 0⟩ : State).x +
        ((⟨0, 0.125, 2000, 0⟩ : State).vx -
          FZ.dragX 0.00001 famG1 ⟨0, 0.125, 2000, 0⟩ * FZ.dt) * FZ.dt <
      (⟨0, 0.125, 2000, 0⟩ : State).x
    rw [hdx]
    show (0:ℝ) + (2000 - 0.0023769 * 2000 ^ 2 * 0.52 / (0.00001 * 2) * FZ.dt) * FZ.dt < 0
    unfold FZ.dt
    norm_num

/-! ### Concrete one-step evaluation of the solver's integrator -/

/-- If the guard holds at entry and a single step reaches the stopping range,
`simLoop` returns the height after that one step (the source's early
`return y`). -/
lemma FZ.simLoop_one_exit (bc : ℝ) (fam : String) (zrft : ℝ) (n : ℕ) (s : State)
    (h0 : s.x ≤ zrft) (h1 : (FZ.step bc fam s).x ≥ zrft) :
    FZ.simLoop bc fam zrft (n + 1) s = some (FZ.step bc fam s).y := by
  rw [FZ.simLoop, if_pos h0, if_pos h1]

/-- Concrete evaluation: with muzzle velocity 2750 fps, ballistic coefficient
0.485, sight height 1.5 in, family G1, angle 0 and any stopping range between
0 and 2.7 feet (0 to 0.9 yards), the integrator performs exactly one step and
returns height `0.125 - 32.174 * 0.001 * 0.001 = 0.124967826` feet. -/
lemma FZ.sim_one_step_eval (zr : ℝ) (h0 : 0 ≤ zr * 3) (h1 : zr * 3 ≤ 27 / 10) :
    FZ.simulate_to_zero 2750 0.485 zr 1.5 famG1 1 0 = some 0.124967826 := by
  have hstate : (⟨0, (1.5:ℝ) / 12, 2750 * Real.cos 0, 2750 * Real.sin 0⟩ : State) =
      ⟨0, 0.125, 2750, 0⟩ := by
    rw [Real.cos_zero, Real.sin_zero]
    simp only [State.mk.injEq]
    norm_num
  have hsp : FZ.speed ⟨0, 0.125, 2750, 0⟩ = 2750 :=
    FZ.speed_horizontal 0 0.125 2750 (by norm_num)
  have hcd : FZ.calculate_drag_coefficient 2750 famG1 = 0.52 :=
    FZ.cd_G1_supersonic 2750 (by norm_num)
  have hdx : FZ.dragX 0.485 famG1 ⟨0, 0.125, 2750, 0⟩ =
      0.0023769 * 2750 ^ 2 * 0.52 / (0.485 * 2) := by
    unfold FZ.dragX FZ.dragAccel
    rw [hsp, hcd]
    rw [if_pos (by norm_num : (2750:ℝ) > 0)]
    show FZ.AIR_DENSITY * 2750 ^ 2 * 0.52 / (0.485 * 2) * 2750 / 2750 = _
    unfold FZ.AIR_DENSITY
    norm_num
  have hdy : FZ.dragY 0.485 famG1 ⟨0, 0.125, 2750, 0⟩ = 0 := by
    unfold FZ.dragY FZ.dragAccel
    rw [hsp, hcd]
    rw [if_pos (by norm_num : (2750:ℝ) > 0)]
    show FZ.AIR_DENSITY * 2750 ^ 2 * 0.52 / (0.485 * 2) * 0 / 2750 = 0
    norm_num
  have hx : (FZ.step 0.485 famG1 ⟨0, 0.125, 2750, 0⟩).x =
      (2750 - 0.0023769 * 2750 ^ 2 * 0.52 / (0.485 * 2) * FZ.dt) * FZ.dt := by
    show (0:ℝ) + ((2750:ℝ) - FZ.dragX 0.485 famG1 ⟨0, 0.125, 2750, 0⟩ * FZ.dt) * FZ.dt = _
    rw [hdx]
    ring
  have hy : (FZ.step 0.485 famG1 ⟨0, 0.125, 2750, 0⟩).y = 0.124967826 := by
    show (0.125:ℝ) +
        ((0:ℝ) - (FZ.GRAVITY + FZ.dragY 0.485 famG1 ⟨0, 0.125, 2750, 0⟩) * FZ.dt) * FZ.dt = _
    rw [hdy]
    unfold FZ.GRAVITY FZ.dt
    norm_num
  unfold FZ.simulate_to_zero
  rw [hstate]
  rw [show (1:ℕ) = 0 + 1 from rfl]
  rw [FZ.simLoop_one_exit 0.485 famG1 (zr * 3) 0 ⟨0, 0.125, 2750, 0⟩
    (by show (0:ℝ) ≤ zr * 3; exact h0)
    (by
      show zr * 3 ≤ (FZ.step 0.485 famG1 ⟨0, 0.125, 2750, 0⟩).x
      rw [hx]
      have hv : (27:ℝ) / 10 ≤
          (2750 - 0.0023769 * 2750 ^ 2 * 0.52 / (0.485 * 2) * FZ.dt) * FZ.dt := by
        unfold FZ.dt
        norm_num
      linarith)]
  rw [hy]

/-- Concrete evaluation of the full solver at zero range 0.001 yards: the
first midpoint angle 0 already meets the tolerance, so `find_zero_angle`
returns `some 0` after one simulated step. -/
lemma FZ.find_zero_angle_eval :
    FZ.find_zero_angle 2750 0.485 (1 / 1000) 1.5 famG1 1 = some 0 := by
  have hmid : ((-0.1:ℝ) + 0.1) / 2 = 0 := by norm_num
  have hsim : FZ.simulate_to_zero 2750 0.485 (1 / 1000) 1.5 famG1 1 (((-0.1:ℝ) + 0.1) / 2) =
      some 0.124967826 := by
    rw [hmid]
    exact FZ.sim_one_step_eval (1 / 1000) (by norm_num) (by norm_num)
  unfold FZ.find_zero_angle
  rw [show (50:ℕ) = 49 + 1 from rfl, FZ.bisect]
  rw [hsim]
  dsimp only
  rw [if_pos (by
    rw [show (0.124967826:ℝ) - 1.5 / 12 = -0.000032174 by norm_num]
    rw [abs_of_nonpos (by norm_num)]
    norm_num)]
  rw [Option.map_some']
  norm_num

/-- Counterexample to C4 as stated: at stopping range exactly 0 the guard
`x <= zero_range` holds (`0 <= 0`), the loop body executes once, and the
integrator returns `0.124967826` feet — not the initial sight height
`1.5 / 12 = 0.125` feet. -/
theorem simulate_to_zero_zero_range_executes_body :
    FZ.simulate_to_zero 2750 0.485 0 1.5 famG1 1 0 = some 0.124967826 ∧
      (0.124967826 : ℝ) ≠ 1.5 / 12 :=
  ⟨FZ.sim_one_step_eval 0 (by norm_num) (by norm_num), by norm_num⟩

/-- Witness for C1 at concrete valid inputs (zero range 0.001 yards, where
the solver converges at the first midpoint). -/
theorem find_zero_angle_tolerance_or_budget_witness :
    (0:ℝ) < 2750 ∧ (0:ℝ) < 0.485 ∧ (0:ℝ) < 1 / 1000 ∧
      ((∃ h, FZ.simulate_to_zero 2750 0.485 (1 / 1000) 1.5 famG1 1 0 = some h ∧
          |h - 1.5 / 12| < 0.0001) ∨
        FZ.bisect (FZ.simulate_to_zero 2750 0.485 (1 / 1000) 1.5 famG1 1) (1.5 / 12)
          50 (-0.1) 0.1 = some (0, false)) :=
  ⟨by norm_num, by norm_num, by norm_num,
    find_zero_angle_tolerance_or_budget 2750 0.485 (1 / 1000) 1.5 famG1 1 0
      (by norm_num) (by norm_num) (by norm_num) FZ.find_zero_angle_eval⟩

/-! ### C6: the convergence information is dropped from the result -/

/-- C6 (code versus claim): `find_zero_angle` returns only the first
component of the bisection loop's result — the angle — discarding the
convergence flag; its result is a bare number carrying no non-convergence
attribute (and no exception path exists besides it). -/
theorem find_zero_angle_returns_bare_angle (mv bc zr sh : ℝ) (fam : String) (fuel : ℕ) :
    FZ.find_zero_angle mv bc zr sh fam fuel =
      (FZ.bisect (FZ.simulate_to_zero mv bc zr sh fam fuel) (sh / 12)
        50 (-0.1) 0.1).map Prod.fst := rfl
